import Mathlib

/-!
Verification of the message routing and smoothing engine of
`src/modules/n_proxy_m_bus.py` (class `FACSvatarMessages`).

The embedding models:
* JSON values (`JVal`) and wire byte strings (`Bytes`);
* the classifier loop `pub_sub_function` (source lines 91-164) as
  `pub_sub_step` / `pub_sub_loop` / `pub_sub_function`;
* the command router `set_parameters` (lines 167-183) and
  `set_multiplier` (lines 186-195);
* the mode selection in `start` (lines 54-89).

The smoothing class `SmoothData` is defined in `smooth_data.py`, which is not
among the sources; its state record and the `trailing_moving_average` method
are modelled from the spec (see their doc comments).  The classifier theorems
are stated for an arbitrary smoothing function `SmoothFn`, so they do not
depend on that model.

Python floats are modelled as exact rationals; byte strings that hold JSON
are modelled by the value they decode to (`Bytes.json`), all other byte
strings by their text (`Bytes.raw`).
-/

/-- JSON values, as produced by `json.loads`: numbers, strings, arrays and
objects.  Objects are association lists in document order (Python dicts keep
insertion order); `json.loads` never produces duplicate keys. -/
inductive JVal where
  | num (q : ℚ)
  | str (s : String)
  | arr (l : List JVal)
  | obj (l : List (String × JVal))

mutual

/-- Rendering of a JSON value back to text, as `json.dumps` would produce it
(whitespace and number formatting are irrelevant to the source logic, which
only ever inspects decoded text via `startswith`). -/
def jsonText : JVal → String
  | .num q => toString q.num ++ "/" ++ toString q.den
  | .str s => "\"" ++ s ++ "\""
  | .arr l => "[" ++ jsonTextSeq l ++ "]"
  | .obj l => "\x7b" ++ jsonTextMap l ++ "\x7d"

/-- Comma-separated rendering of the elements of a JSON array. -/
def jsonTextSeq : List JVal → String
  | [] => ""
  | v :: rest => jsonText v ++ "," ++ jsonTextSeq rest

/-- Comma-separated rendering of the entries of a JSON object. -/
def jsonTextMap : List (String × JVal) → String
  | [] => ""
  | (k, v) :: rest => "\"" ++ k ++ "\":" ++ jsonText v ++ "," ++ jsonTextMap rest

end

/-- A byte string on the wire.  `raw s` is a byte string whose UTF-8 text `s`
is not valid JSON (this includes the empty byte string `b''`); `json v` is a
byte string whose text parses to the JSON value `v`.  Every concrete byte
string of the program falls in exactly one of the two classes, and
`json.dumps` always lands in the second. -/
inductive Bytes where
  | raw (s : String)
  | json (v : JVal)

/-- Python `bytes.decode("utf-8")` (all modelled byte strings are valid
UTF-8). -/
def Bytes.decodeUtf8 : Bytes → String
  | .raw s => s
  | .json v => jsonText v

/-- Python truthiness of a byte string (`if msg[1]:`): true iff nonempty.
A JSON rendering is never the empty string. -/
def Bytes.isNonEmpty : Bytes → Bool
  | .raw s => !(s == "")
  | .json _ => true

/-- Python `str.startswith`. -/
def strStartsWith (s p : String) : Bool :=
  p.data.isPrefixOf s.data

/-- Python `json.loads(b.decode("utf-8"))`: succeeds exactly on byte strings
that hold valid JSON, raising `json.decoder.JSONDecodeError` otherwise. -/
def jsonLoads : Bytes → Except String JVal
  | .raw _ => .error "json.decoder.JSONDecodeError"
  | .json v => .ok v

/-- Python list indexing `l[n]`, raising `IndexError` out of range. -/
def listIdx {α : Type} : List α → Nat → Except String α
  | [], _ => .error "IndexError: list index out of range"
  | x :: _, 0 => .ok x
  | _ :: xs, n + 1 => listIdx xs n

/-- Lookup of a key in a JSON object (Python `d[k]` / `k in d`); first match
wins, as in a Python dict. -/
def lookupKey (k : String) : List (String × JVal) → Option JVal
  | [] => none
  | (k1, v) :: rest => if k1 = k then some v else lookupKey k rest

/-- Assignment `d[k] = v` on a JSON object for a key that is present: the
value of every entry with key `k` is replaced, all other entries are kept
unchanged in place (Python dicts hold each key once, so this coincides with
dict assignment on objects produced by `json.loads`). -/
def setKey (k : String) (v : JVal) : List (String × JVal) → List (String × JVal)
  | [] => []
  | (k1, v1) :: rest => (k1, if k1 = k then v else v1) :: setKey k v rest

/-- View of a JSON value as an object.  The source only ever applies dict
operations (`in`, `[]`, `.items()`) to payloads; on a non-object payload
those operations raise (for example `.items()` raises `AttributeError`), so
a non-object where an object is required is modelled as a processing error.
No claim concerns non-object payloads. -/
def asObj : JVal → Except String (List (String × JVal))
  | .obj l => .ok l
  | _ => .error "TypeError: not a JSON object"

/-- Ordering of object entries by key, used to embed
`sorted(au_r_dict.items(), key=lambda k: k[0])` (Python compares strings
lexicographically by code point, as the Mathlib order on `String` does). -/
def keyLE (a b : String × JVal) : Prop := a.1 ≤ b.1

instance : DecidableRel keyLE := fun a b => inferInstanceAs (Decidable (a.1 ≤ b.1))

instance : IsTotal (String × JVal) keyLE := ⟨fun a b => le_total a.1 b.1⟩

instance : IsTrans (String × JVal) keyLE := ⟨fun _ _ _ h1 h2 => le_trans h1 h2⟩

/-- Embedding of `dict(sorted(au_r_dict.items(), key=lambda k: k[0]))`
(source line 136): a stable sort of the entries by key. -/
def sortByKey (l : List (String × JVal)) : List (String × JVal) :=
  List.insertionSort keyLE l

/-- The smoother state held in `self.smooth_data`.

Modelled from the spec: the `SmoothData` class lives in `smooth_data.py`,
which is not among the sources.  Per the spec it holds a process-wide
multiplier vector (unset until the Parameter Router installs one; the source
stores whatever `np.array(json.loads(data))` yields, so the installed value
is kept as the parsed JSON value) and, per integer stream id (`queue_no`), a
bounded history of the most recent (multiplier-scaled) sample value
vectors. -/
structure SmoothData where
  multiplier : Option JVal
  queues : List (Nat × List (List ℚ))

/-- A fresh `SmoothData()` instance: no multiplier set, no history. -/
def SmoothData.init : SmoothData := ⟨none, []⟩

/-- History buffer of stream `n` (empty when the stream was never seen:
buffers are created lazily on first use). -/
def queueGet (qs : List (Nat × List (List ℚ))) (n : Nat) : List (List ℚ) :=
  match qs with
  | [] => []
  | (m, h) :: rest => if m = n then h else queueGet rest n

/-- Replacement (or lazy creation) of the history buffer of stream `n`. -/
def queueSet (qs : List (Nat × List (List ℚ))) (n : Nat) (h : List (List ℚ)) :
    List (Nat × List (List ℚ)) :=
  match qs with
  | [] => [(n, h)]
  | (m, h1) :: rest => if m = n then (m, h) :: rest else (m, h1) :: queueSet rest n h

/-- Numeric values of a JSON object, in entry order; smoothing arithmetic on
a non-numeric value is a processing error. -/
def numValues : List (String × JVal) → Except String (List ℚ)
  | [] => .ok []
  | (_, .num q) :: rest =>
    match numValues rest with
    | .ok qs => .ok (q :: qs)
    | .error e => .error e
  | _ => .error "TypeError: sample value is not a number"

/-- Numeric elements of a JSON array. -/
def numArr : List JVal → Except String (List ℚ)
  | [] => .ok []
  | .num q :: rest =>
    match numArr rest with
    | .ok qs => .ok (q :: qs)
    | .error e => .error e
  | _ => .error "TypeError: array element is not a number"

/-- Element-wise application of the multiplier vector to a raw sample value
vector.

Modelled from the spec: an unset multiplier acts as the identity; a set
multiplier must be a numeric array of the same length as the value vector
(numpy broadcasting of mismatched shapes raises). -/
def applyMultiplier : Option JVal → List ℚ → Except String (List ℚ)
  | none, vals => .ok vals
  | some (.arr ms), vals =>
    match numArr ms with
    | .error e => .error e
    | .ok qs =>
      if qs.length = vals.length then .ok (List.zipWith (· * ·) qs vals)
      else .error "ValueError: multiplier length mismatch"
  | some _, _ => .error "TypeError: multiplier is not an array"

/-- Element-wise sum of two value vectors of equal length (the unequal-length
cases are never reached: callers check lengths first). -/
def vecAdd : List ℚ → List ℚ → List ℚ
  | [], ys => ys
  | x :: xs, [] => x :: xs
  | x :: xs, y :: ys => (x + y) :: vecAdd xs ys

/-- Weight-decayed sum of the buffered value vectors: the vector at age `i`
(0 = newest) is scaled by `steep ^ i`. -/
def weightedSum (steep : ℚ) : Nat → List (List ℚ) → List ℚ
  | _, [] => []
  | i, l :: rest => vecAdd (l.map fun x => steep ^ i * x) (weightedSum steep (i + 1) rest)

/-- Total weight of a history of `n` buffered vectors. -/
def weightTotal (steep : ℚ) : Nat → ℚ
  | 0 => 0
  | n + 1 => steep ^ n + weightTotal steep n

/-- The smoothing function `SmoothData.trailing_moving_average`.

Modelled from the spec: the method lives in `smooth_data.py`, which is not
among the sources.  Per the spec it takes a mapping of numeric values,
applies the current multiplier element-wise to the input values, pushes the
scaled vector onto the history buffer of stream `queue_no` (keeping at most
`window_size` vectors), and returns the mapping whose values are the
weight-decayed average of the buffered vectors, weights decaying
geometrically by `steep` per step going backward in time.  Averaging is
positional; a history whose vectors disagree in length (the key set changed
between samples) is a processing error, the fail-fast policy the spec names
as the acceptable simplification. -/
def trailing_moving_average (sd : SmoothData) (sample : JVal)
    (queue_no window_size : Nat) (steep : ℚ) : Except String (SmoothData × JVal) :=
  match sample with
  | .obj kvs =>
    match numValues kvs with
    | .error e => .error e
    | .ok vals =>
      match applyMultiplier sd.multiplier vals with
      | .error e => .error e
      | .ok scaled =>
        let hist := (scaled :: queueGet sd.queues queue_no).take window_size
        if hist.all fun l => l.length = scaled.length then
          let avg := (weightedSum steep 0 hist).map fun x => x / weightTotal steep hist.length
          .ok ({ sd with queues := queueSet sd.queues queue_no hist },
               .obj ((kvs.map Prod.fst).zip (avg.map JVal.num)))
        else .error "ValueError: inconsistent sample lengths in history"
  | _ => .error "AttributeError: sample is not a mapping"

/-- Shape of the smoothing function the classifier is handed
(`smooth_func = getattr(self.smooth_data, apply_function)`, source line 97):
state, sample, `queue_no`, `window_size`, `steep` to new state and smoothed
sample.  The classifier theorems quantify over it. -/
def SmoothFn : Type :=
  SmoothData → JVal → Nat → Nat → ℚ → Except String (SmoothData × JVal)

/-- The smoothing function the program instantiates (`start` is called with
`"trailing_moving_average"`, source line 233). -/
def trailingSmoothFn : SmoothFn := trailing_moving_average

/-- A smoothing function that returns its sample unchanged; used to
instantiate theorems that hold for every `SmoothFn`. -/
def idSmoothFn : SmoothFn := fun sd v _ _ _ => .ok (sd, v)

/-- Confidence threshold 0.8 of source line 127 (written as an explicit
rational; `conf_threshold_eq` states the usual form). -/
def conf_threshold : ℚ := mkRat 4 5

/-- Embedding of the gate of source line 127:
`'confidence' not in msg[2] or msg[2]['confidence'] >= 0.8`.  A present
non-numeric confidence makes the Python comparison raise `TypeError`. -/
def confidence_ok (kvs : List (String × JVal)) : Except String Bool :=
  match lookupKey "confidence" kvs with
  | none => .ok true
  | some (.num c) => .ok (decide (conf_threshold ≤ c))
  | some _ => .error "TypeError: confidence is not comparable to a float"

/-- Embedding of source line 136: `msg[2]['au_r'].items()` sorted by key;
`.items()` on a non-dict raises `AttributeError`. -/
def au_sort : JVal → Except String (List (String × JVal))
  | .obj l => .ok (sortByKey l)
  | _ => .error "AttributeError: object has no attribute items"

/-- Decay steepness 0.35 of the action-unit stream (source line 139). -/
def steep_au : ℚ := mkRat 7 20

/-- Decay steepness 0.2 of the pose stream (source line 143). -/
def steep_pose : ℚ := mkRat 1 5

/-- Embedding of source lines 133-143: if `au_r` is present, sort its entries
by key and replace it by the smoothing of the sorted object on stream 0 with
`window_size=4`, `steep=.35`; then, if `pose` is present (looked up in the
possibly already updated payload), replace it by the smoothing of its value
on stream 1 with `window_size=4`, `steep=.2`. -/
def au_pose_transform (f : SmoothFn) (sd : SmoothData) (kvs : List (String × JVal)) :
    Except String (SmoothData × List (String × JVal)) :=
  match
    (match lookupKey "au_r" kvs with
     | none => .ok (sd, kvs)
     | some auv =>
       match au_sort auv with
       | .error e => .error e
       | .ok auSorted =>
         match f sd (.obj auSorted) 0 4 steep_au with
         | .error e => .error e
         | .ok (sd1, v1) => .ok (sd1, setKey "au_r" v1 kvs) :
           Except String (SmoothData × List (String × JVal))) with
  | .error e => .error e
  | .ok (sd1, kvs1) =>
    match lookupKey "pose" kvs1 with
    | none => .ok (sd1, kvs1)
    | some pv =>
      match f sd1 pv 1 4 steep_pose with
      | .error e => .error e
      | .ok (sd2, v2) => .ok (sd2, setKey "pose" v2 kvs1)

/-- Embedding of one iteration of the classifier loop, source lines 104-158:
receive `msg`; if `msg[1]` (the frame part) is nonempty, parse `msg[2]` as
JSON, apply the confidence gate, skip smoothing when the topic starts with
`facsvatar`, otherwise smooth `au_r` and `pose`, and send
`[msg[0], msg[1], dumps(msg[2])]`; if the frame part is empty, send the
terminal message `[msg[0], b'', b'']` without touching the payload.
The result is the new smoother state and the sent message, if any;
`.error` is a raised exception. -/
def pub_sub_step (f : SmoothFn) (sd : SmoothData) (msg : List Bytes) :
    Except String (SmoothData × Option (List Bytes)) :=
  match listIdx msg 1 with
  | .error e => .error e
  | .ok frame =>
    if frame.isNonEmpty then
      match listIdx msg 2 with
      | .error e => .error e
      | .ok pbytes =>
        match jsonLoads pbytes with
        | .error e => .error e
        | .ok pv =>
          match asObj pv with
          | .error e => .error e
          | .ok kvs =>
            match confidence_ok kvs with
            | .error e => .error e
            | .ok cok =>
              if cok then
                match listIdx msg 0 with
                | .error e => .error e
                | .ok topic =>
                  if strStartsWith topic.decodeUtf8 "facsvatar" then
                    .ok (sd, some [topic, frame, Bytes.json (.obj kvs)])
                  else
                    match au_pose_transform f sd kvs with
                    | .error e => .error e
                    | .ok (sd2, kvs2) =>
                      .ok (sd2, some [topic, frame, Bytes.json (.obj kvs2)])
              else
                .ok (sd, none)
    else
      match listIdx msg 0 with
      | .error e => .error e
      | .ok topic => .ok (sd, some [topic, Bytes.raw "", Bytes.raw ""])

/-- Embedding of the classifier loop, source lines 102-164: the `try` wraps
the whole `while True`, so the first raised exception leaves the loop (it is
only logged afterwards); messages after it are never received.  The result is
the final smoother state and the list of sent messages. -/
def pub_sub_loop (f : SmoothFn) (sd : SmoothData) :
    List (List Bytes) → SmoothData × List (List Bytes)
  | [] => (sd, [])
  | m :: ms =>
    match pub_sub_step f sd m with
    | .ok (sd1, some out) =>
      let r := pub_sub_loop f sd1 ms
      (r.1, out :: r.2)
    | .ok (sd1, none) => pub_sub_loop f sd1 ms
    | .error _ => (sd, [])

/-- The full state of the `FACSvatarMessages` object that the two loops
share: the `smooth_data` attribute, absent until `pub_sub_function` creates
it.

Modelled from the spec: the base class `FACSvatarZeroMQ` is not among the
sources; nothing before source line 95 defines `self.smooth_data`, and the
spec has the smoother state created lazily by the classifier, so the initial
state carries no smoother. -/
structure FState where
  smoothData : Option SmoothData

/-- Embedding of `pub_sub_function` (source lines 91-164): create a fresh
`SmoothData` instance (line 95), then run the classifier loop on the inbound
messages. -/
def pub_sub_function (f : SmoothFn) (st : FState) (msgs : List (List Bytes)) :
    FState × List (List Bytes) :=
  let r := pub_sub_loop f SmoothData.init msgs
  ({ st with smoothData := some r.1 }, r.2)

/-- Embedding of `set_multiplier` (source lines 186-195): parse the command
data as JSON (`json.loads`), then store the value (as wrapped by `np.array`,
which accepts any JSON value) into `self.smooth_data.multiplier`; reading
`self.smooth_data` raises `AttributeError` when the attribute does not exist
yet. -/
def set_multiplier (st : FState) (data : Bytes) : Except String FState :=
  match jsonLoads data with
  | .error e => .error e
  | .ok j =>
    match st.smoothData with
    | none => .error "AttributeError: FACSvatarMessages object has no attribute smooth_data"
    | some sd => .ok { st with smoothData := some { sd with multiplier := some j } }

/-- Embedding of one iteration of the router loop, source lines 170-183:
unpack the received message into exactly three parts (a wrong part count
raises `ValueError`), and dispatch on the topic: a topic starting with
`multiplier` installs a new multiplier, any other topic does nothing. -/
def set_parameters_step (st : FState) (cmd : List Bytes) : Except String FState :=
  match cmd with
  | [_, topicb, datab] =>
    if strStartsWith topicb.decodeUtf8 "multiplier" then set_multiplier st datab
    else .ok st
  | _ => .error "ValueError: cannot unpack message into three parts"

/-- Embedding of the router loop, source lines 170-183: the `try` is inside
the `while True`, so a raised exception is caught and logged and the loop
continues with the next command, the state unchanged. -/
def set_parameters_loop (st : FState) : List (List Bytes) → FState
  | [] => st
  | c :: cs =>
    set_parameters_loop
      (match set_parameters_step st c with
       | .ok st1 => st1
       | .error _ => st) cs

/-- Outcome of `FACSvatarMessages.start`. -/
inductive StartMode where
  | exited
  | functionMode
  | proxyMode

/-- Embedding of `start` (source lines 54-89): when either the pub socket or
the sub socket is not initialised (falsy), print and `sys.exit()`; otherwise
enter function mode when a function list is given, else proxy mode.  Socket
truthiness is abstracted to a Boolean (the sockets are created by the base
class, outside the core). -/
def start (pub_sock sub_sock has_funcs : Bool) : StartMode :=
  if !pub_sock || !sub_sock then .exited
  else if has_funcs then .functionMode
  else .proxyMode

/-! ## Helper lemmas -/

/-- The confidence threshold is 0.8. -/
theorem conf_threshold_eq : conf_threshold = 4/5 := by
  rw [conf_threshold, Rat.mkRat_eq_divInt, Rat.divInt_eq_div]
  norm_num

/-- The action-unit decay steepness is 0.35. -/
theorem steep_au_eq : steep_au = 7/20 := by
  rw [steep_au, Rat.mkRat_eq_divInt, Rat.divInt_eq_div]
  norm_num

/-- The pose decay steepness is 0.2. -/
theorem steep_pose_eq : steep_pose = 1/5 := by
  rw [steep_pose, Rat.mkRat_eq_divInt, Rat.divInt_eq_div]
  norm_num

/-- Replacing the value of key `k1` leaves the lookup of any other key
unchanged. -/
theorem lookupKey_setKey_ne (k k1 : String) (v : JVal) (l : List (String × JVal))
    (h : k ≠ k1) : lookupKey k (setKey k1 v l) = lookupKey k l := by
  induction l with
  | nil => rfl
  | cons hd tl ih =>
    obtain ⟨k2, v2⟩ := hd
    by_cases hk2 : k2 = k
    · subst hk2
      simp [setKey, lookupKey, if_neg h, ih]
    · simp [setKey, lookupKey, hk2, ih]

/-- The keys of a key-sorted object are sorted. -/
theorem sortByKey_keys_sorted (l : List (String × JVal)) :
    List.Sorted (fun a b : String => a ≤ b) ((sortByKey l).map Prod.fst) := by
  have h := List.sorted_insertionSort keyLE l
  unfold List.Sorted at h ⊢
  rw [List.pairwise_map]
  exact h

/-! ## Claim theorems -/

/-- C1 (counterexample): in the Message Classifier loop the `try` wraps the
whole `while True`, so an error does not let the loop continue: after a
malformed-payload message, a following terminal message - which on its own
produces the terminal output - is never processed and nothing is emitted. -/
theorem C1_counterexample :
    pub_sub_loop trailingSmoothFn SmoothData.init
        [[Bytes.raw "openface", Bytes.raw "42", Bytes.raw "notjson"],
         [Bytes.raw "openface", Bytes.raw ""]]
      = (SmoothData.init, [])
  ∧ pub_sub_loop trailingSmoothFn SmoothData.init
        [[Bytes.raw "openface", Bytes.raw ""]]
      = (SmoothData.init, [[Bytes.raw "openface", Bytes.raw "", Bytes.raw ""]]) :=
  ⟨rfl, rfl⟩

/-- C1 (amended): an error in a Parameter Router iteration is caught and the
router loop continues with the next command, state unchanged; an error in a
Message Classifier iteration is caught (and logged) but terminates that loop:
the remaining messages are not processed and contribute no output.  Neither
loop's error terminates the sibling loop (the loops run on separate channels;
in the model each loop is a function of its own input stream only). -/
theorem C1_amended_error_containment :
    (∀ (st : FState) (c : List Bytes) (cs : List (List Bytes)) (e : String),
        set_parameters_step st c = .error e →
        set_parameters_loop st (c :: cs) = set_parameters_loop st cs)
  ∧ (∀ (f : SmoothFn) (sd : SmoothData) (m : List Bytes) (ms : List (List Bytes)) (e : String),
        pub_sub_step f sd m = .error e →
        pub_sub_loop f sd (m :: ms) = (sd, [])) := by
  constructor
  · intro st c cs e h
    simp only [set_parameters_loop, h]
  · intro f sd m ms e h
    simp only [pub_sub_loop, h]

/-- C1 (witness): the amended containment at a concrete malformed command
and a concrete malformed message. -/
theorem C1_witness :
    set_parameters_loop ⟨none⟩
        ([Bytes.raw "id1", Bytes.raw "multiplier", Bytes.raw "notjson"]
          :: [[Bytes.raw "id1", Bytes.raw "other", Bytes.raw "x"]])
      = set_parameters_loop ⟨none⟩ [[Bytes.raw "id1", Bytes.raw "other", Bytes.raw "x"]]
  ∧ pub_sub_loop trailingSmoothFn SmoothData.init
        ([Bytes.raw "openface", Bytes.raw "7", Bytes.raw "zzz"] :: [])
      = (SmoothData.init, []) :=
  ⟨C1_amended_error_containment.1 ⟨none⟩ _ _ "json.decoder.JSONDecodeError" rfl,
   C1_amended_error_containment.2 trailingSmoothFn SmoothData.init _ []
     "json.decoder.JSONDecodeError" rfl⟩

/-- C2: a message whose frame part (`msg[1]`) is empty makes the classifier
emit exactly the terminal message `(topic, empty, empty)`, whatever the
remaining parts hold (the payload is never parsed), with the smoother state
untouched. -/
theorem C2_terminal_message (f : SmoothFn) (sd : SmoothData) (t : Bytes)
    (rest : List Bytes) :
    pub_sub_step f sd (t :: Bytes.raw "" :: rest)
      = .ok (sd, some [t, Bytes.raw "", Bytes.raw ""]) := rfl

/-- C7: a 3-part command whose topic starts with `multiplier` parses its data
part as JSON and installs the parsed value as the new multiplier, wholly
replacing the previous one (whatever it was); a 3-part command with any other
topic leaves the state unchanged and raises no error. -/
theorem C7_multiplier_command (st : FState) (sd : SmoothData)
    (idb topicb datab : Bytes) (j : JVal) :
    (strStartsWith topicb.decodeUtf8 "multiplier" = true →
     jsonLoads datab = .ok j →
     st.smoothData = some sd →
     set_parameters_step st [idb, topicb, datab]
       = .ok { st with smoothData := some { sd with multiplier := some j } })
  ∧ (strStartsWith topicb.decodeUtf8 "multiplier" = false →
     set_parameters_step st [idb, topicb, datab] = .ok st) := by
  constructor
  · intro ht hj hsd
    simp only [set_parameters_step, ht, if_true, set_multiplier, hj, hsd]
  · intro ht
    simp only [set_parameters_step, ht, Bool.false_eq_true, if_false]

/-- C7 (witness): a concrete multiplier command `("id1", "multiplier",
"[2]")` against an initialised smoother, and a concrete unrecognized
command. -/
theorem C7_witness :
    set_parameters_step ⟨some SmoothData.init⟩
        [Bytes.raw "id1", Bytes.raw "multiplier",
         Bytes.json (.arr [JVal.num (mkRat 2 1)])]
      = .ok ⟨some ⟨some (.arr [JVal.num (mkRat 2 1)]), []⟩⟩
  ∧ set_parameters_step ⟨some SmoothData.init⟩
        [Bytes.raw "id1", Bytes.raw "gain", Bytes.raw "zzz"]
      = .ok ⟨some SmoothData.init⟩ :=
  ⟨(C7_multiplier_command ⟨some SmoothData.init⟩ SmoothData.init
      (Bytes.raw "id1") (Bytes.raw "multiplier")
      (Bytes.json (.arr [JVal.num (mkRat 2 1)]))
      (.arr [JVal.num (mkRat 2 1)])).1 rfl rfl rfl,
   (C7_multiplier_command ⟨some SmoothData.init⟩ SmoothData.init
      (Bytes.raw "id1") (Bytes.raw "gain") (Bytes.raw "zzz")
      (.arr [])).2 rfl⟩

/-- C8: `start` exits iff the pub socket or the sub socket is not
initialised; with both initialised it enters function mode when functions
are given and proxy mode otherwise, never the exit path. -/
theorem C8_startup_check :
    ∀ (pub_sock sub_sock has_funcs : Bool),
      (start pub_sock sub_sock has_funcs = StartMode.exited
        ↔ pub_sock = false ∨ sub_sock = false)
      ∧ start true true has_funcs
        = (if has_funcs then StartMode.functionMode else StartMode.proxyMode) := by
  intro p s fn
  cases p <;> cases s <;> cases fn <;> simp [start]

/-- C10: as long as `pub_sub_function` has not created `self.smooth_data`
(the only place that creates it), a multiplier command makes `set_multiplier`
raise (`AttributeError`), the router iteration as a whole raise, and the
router loop continue with the state unchanged - the multiplier is not
installed and the command is discarded (after logging); running
`pub_sub_function` is what makes the smoother state exist. -/
theorem C10_premature_multiplier_command (st : FState) (idb topicb datab : Bytes)
    (j : JVal) (cs : List (List Bytes))
    (hsd : st.smoothData = none)
    (ht : strStartsWith topicb.decodeUtf8 "multiplier" = true)
    (hj : jsonLoads datab = .ok j) :
    (∃ e, set_multiplier st datab = .error e)
  ∧ (∃ e, set_parameters_step st [idb, topicb, datab] = .error e)
  ∧ set_parameters_loop st ([idb, topicb, datab] :: cs) = set_parameters_loop st cs
  ∧ ∀ (f : SmoothFn) (msgs : List (List Bytes)),
      ((pub_sub_function f st msgs).1.smoothData).isSome = true := by
  have hm : set_multiplier st datab
      = .error "AttributeError: FACSvatarMessages object has no attribute smooth_data" := by
    simp only [set_multiplier, hj, hsd]
  have hs : set_parameters_step st [idb, topicb, datab]
      = .error "AttributeError: FACSvatarMessages object has no attribute smooth_data" := by
    simp only [set_parameters_step, ht, if_true, hm]
  refine ⟨⟨_, hm⟩, ⟨_, hs⟩, ?_, ?_⟩
  · simp only [set_parameters_loop, hs]
  · intro f msgs
    simp only [pub_sub_function, Option.isSome_some]

/-- C10 (witness): a concrete multiplier command `("id1", "multiplier",
"[1.5]")` received while `smooth_data` does not exist leaves the router
state unchanged. -/
theorem C10_witness :
    set_parameters_loop ⟨none⟩
        ([Bytes.raw "id1", Bytes.raw "multiplier",
          Bytes.json (.arr [JVal.num (mkRat 3 2)])] :: [])
      = set_parameters_loop ⟨none⟩ [] :=
  (C10_premature_multiplier_command ⟨none⟩ (Bytes.raw "id1") (Bytes.raw "multiplier")
    (Bytes.json (.arr [JVal.num (mkRat 3 2)])) (.arr [JVal.num (mkRat 3 2)]) []
    rfl rfl rfl).2.2.1

/-- C3 (counterexample): a payload with `confidence = 1` (which passes the
gate) and a non-object `au_r` makes the classifier raise (line 136 calls
`.items()` on the value), so no message is emitted even though confidence is
at least 0.8. -/
theorem C3_counterexample :
    lookupKey "confidence"
        [("confidence", JVal.num (mkRat 1 1)), ("au_r", JVal.num (mkRat 5 1))]
      = some (JVal.num (mkRat 1 1))
  ∧ (4:ℚ)/5 ≤ mkRat 1 1
  ∧ pub_sub_step trailingSmoothFn SmoothData.init
        [Bytes.raw "openface", Bytes.raw "42",
         Bytes.json (.obj [("confidence", JVal.num (mkRat 1 1)),
                           ("au_r", JVal.num (mkRat 5 1))])]
      = .error "AttributeError: object has no attribute items" :=
  ⟨rfl, by rw [Rat.mkRat_eq_divInt, Rat.divInt_eq_div]; norm_num, rfl⟩

/-- C3 (amended): a non-terminal message whose payload carries a numeric
`confidence` below 0.8 is dropped: no message is emitted and the state is
unchanged.  When `confidence` is absent or at least 0.8 the message passes
the gate and is never silently dropped: the iteration either emits a message
or raises an error (so emission holds only when the remaining processing
raises no error). -/
theorem C3_amended_confidence_gate (f : SmoothFn) (sd : SmoothData) (t fr p : Bytes)
    (rest : List Bytes) (kvs : List (String × JVal)) (c : ℚ)
    (hfr : fr.isNonEmpty = true)
    (hload : jsonLoads p = .ok (.obj kvs)) :
    (lookupKey "confidence" kvs = some (.num c) → c < 4/5 →
      pub_sub_step f sd (t :: fr :: p :: rest) = .ok (sd, none))
  ∧ (lookupKey "confidence" kvs = none ∨
      (lookupKey "confidence" kvs = some (.num c) ∧ 4/5 ≤ c) →
      ∀ sd3, pub_sub_step f sd (t :: fr :: p :: rest) ≠ .ok (sd3, none)) := by
  have h1 : listIdx (t :: fr :: p :: rest) 1 = .ok fr := rfl
  have h2 : listIdx (t :: fr :: p :: rest) 2 = .ok p := rfl
  have h0 : listIdx (t :: fr :: p :: rest) 0 = .ok t := rfl
  constructor
  · intro hconf hlt
    have hdec : decide (conf_threshold ≤ c) = false := by
      rw [conf_threshold_eq]
      exact decide_eq_false (not_le.mpr hlt)
    have hc : confidence_ok kvs = .ok false := by
      simp only [confidence_ok, hconf, hdec]
    simp [pub_sub_step, h1, h2, h0, hfr, hload, asObj, hc]
  · intro hor sd3
    have hc : confidence_ok kvs = .ok true := by
      rcases hor with h | ⟨h, hge⟩
      · simp only [confidence_ok, h]
      · have hdec : decide (conf_threshold ≤ c) = true := by
          rw [conf_threshold_eq]
          exact decide_eq_true hge
        simp only [confidence_ok, h, hdec]
    simp only [pub_sub_step, h1, h2, h0, hfr, hload, asObj, hc, if_true]
    split
    · simp
    · split <;> simp

/-- C3 (witness): a concrete message with `confidence = 0.7` is dropped, and
a concrete message without a confidence key cannot be dropped. -/
theorem C3_witness :
    pub_sub_step idSmoothFn SmoothData.init
        [Bytes.raw "openface", Bytes.raw "42",
         Bytes.json (.obj [("confidence", JVal.num (mkRat 7 10))])]
      = .ok (SmoothData.init, none)
  ∧ ∀ sd3, pub_sub_step idSmoothFn SmoothData.init
        [Bytes.raw "openface", Bytes.raw "43", Bytes.json (.obj [])]
      ≠ .ok (sd3, none) :=
  ⟨(C3_amended_confidence_gate idSmoothFn SmoothData.init (Bytes.raw "openface")
      (Bytes.raw "42")
      (Bytes.json (.obj [("confidence", JVal.num (mkRat 7 10))])) []
      [("confidence", JVal.num (mkRat 7 10))] (mkRat 7 10) rfl rfl).1 rfl
      (by rw [Rat.mkRat_eq_divInt, Rat.divInt_eq_div]; norm_num),
   (C3_amended_confidence_gate idSmoothFn SmoothData.init (Bytes.raw "openface")
      (Bytes.raw "43") (Bytes.json (.obj [])) [] [] 0 rfl rfl).2 (Or.inl rfl)⟩

/-- C4 (counterexample): a forwarded message carrying a fourth part does not
have that part forwarded: the classifier always sends exactly three parts
(`send_multipart([msg[0], msg[1], dumps(msg[2])])`, source lines 149-153),
and none of them is the fourth inbound part. -/
theorem C4_counterexample :
    pub_sub_step trailingSmoothFn SmoothData.init
        [Bytes.raw "facsvatar_dnn", Bytes.raw "42", Bytes.json (.obj []),
         Bytes.raw "extradata"]
      = .ok (SmoothData.init,
             some [Bytes.raw "facsvatar_dnn", Bytes.raw "42", Bytes.json (.obj [])])
  ∧ ∀ b ∈ [Bytes.raw "facsvatar_dnn", Bytes.raw "42", Bytes.json (.obj [])],
      b ≠ Bytes.raw "extradata" :=
  ⟨rfl, by
    intro b hb
    simp only [List.mem_cons, List.not_mem_nil, or_false] at hb
    rcases hb with rfl | rfl | rfl <;> simp⟩

/-- C4 (amended): every message the classifier emits has exactly three
parts; an optional fourth inbound part is dropped, never forwarded. -/
theorem C4_amended_three_parts (f : SmoothFn) (sd : SmoothData) (msg : List Bytes)
    (sd2 : SmoothData) (out : List Bytes)
    (h : pub_sub_step f sd msg = .ok (sd2, some out)) : out.length = 3 := by
  unfold pub_sub_step at h
  repeat' split at h
  all_goals try simp at h
  all_goals (rw [← h.2]; rfl)

/-- C4 (witness): the three-part shape at a concrete emitted message. -/
theorem C4_witness :
    ([Bytes.raw "facsvatar_dnn", Bytes.raw "7", Bytes.json (.obj [])] : List Bytes).length
      = 3 :=
  C4_amended_three_parts trailingSmoothFn SmoothData.init
    [Bytes.raw "facsvatar_dnn", Bytes.raw "7", Bytes.json (.obj [])]
    SmoothData.init _ rfl

/-- C5: for a non-terminal message that passes the confidence gate and whose
topic does not carry the reserved prefix, a present `au_r` object is sorted
by key and replaced by the smoothing function applied on stream 0 with
`window_size` 4 and `steep` 0.35, and a present `pose` value is replaced by
the smoothing function applied on stream 1 with `window_size` 4 and `steep`
0.2; each field is processed when present, independent of the other, and the
key list handed to the smoother is sorted. -/
theorem C5_smoothing_dispatch (f : SmoothFn) (sd sd1 sd2 : SmoothData) (t fr p : Bytes)
    (rest : List Bytes) (kvs aul : List (String × JVal)) (pv v1 v2 : JVal)
    (hfr : fr.isNonEmpty = true)
    (hload : jsonLoads p = .ok (.obj kvs))
    (hc : confidence_ok kvs = .ok true)
    (htop : strStartsWith t.decodeUtf8 "facsvatar" = false) :
    (lookupKey "au_r" kvs = some (.obj aul) →
     lookupKey "pose" kvs = none →
     f sd (.obj (sortByKey aul)) 0 4 (7/20) = .ok (sd1, v1) →
     pub_sub_step f sd (t :: fr :: p :: rest)
       = .ok (sd1, some [t, fr, Bytes.json (.obj (setKey "au_r" v1 kvs))]))
  ∧ (lookupKey "au_r" kvs = none →
     lookupKey "pose" kvs = some pv →
     f sd pv 1 4 (1/5) = .ok (sd1, v1) →
     pub_sub_step f sd (t :: fr :: p :: rest)
       = .ok (sd1, some [t, fr, Bytes.json (.obj (setKey "pose" v1 kvs))]))
  ∧ (lookupKey "au_r" kvs = some (.obj aul) →
     lookupKey "pose" kvs = some pv →
     f sd (.obj (sortByKey aul)) 0 4 (7/20) = .ok (sd1, v1) →
     f sd1 pv 1 4 (1/5) = .ok (sd2, v2) →
     pub_sub_step f sd (t :: fr :: p :: rest)
       = .ok (sd2, some [t, fr, Bytes.json (.obj (setKey "pose" v2 (setKey "au_r" v1 kvs)))]))
  ∧ List.Sorted (fun a b : String => a ≤ b) ((sortByKey aul).map Prod.fst) := by
  have h1 : listIdx (t :: fr :: p :: rest) 1 = .ok fr := rfl
  have h2 : listIdx (t :: fr :: p :: rest) 2 = .ok p := rfl
  have h0 : listIdx (t :: fr :: p :: rest) 0 = .ok t := rfl
  have hne : lookupKey "pose" (setKey "au_r" v1 kvs) = lookupKey "pose" kvs :=
    lookupKey_setKey_ne "pose" "au_r" v1 kvs (by decide)
  refine ⟨?_, ?_, ?_, sortByKey_keys_sorted aul⟩
  · intro hau hpose hf1
    rw [show (7:ℚ)/20 = steep_au from steep_au_eq.symm] at hf1
    simp [pub_sub_step, au_pose_transform, h1, h2, h0, hfr, hload, asObj, hc, htop,
          hau, au_sort, hf1, hne, hpose]
  · intro hau hpose hf1
    rw [show (1:ℚ)/5 = steep_pose from steep_pose_eq.symm] at hf1
    simp [pub_sub_step, au_pose_transform, h1, h2, h0, hfr, hload, asObj, hc, htop,
          hau, hpose, hf1]
  · intro hau hpose hf1 hf2
    rw [show (7:ℚ)/20 = steep_au from steep_au_eq.symm] at hf1
    rw [show (1:ℚ)/5 = steep_pose from steep_pose_eq.symm] at hf2
    simp [pub_sub_step, au_pose_transform, h1, h2, h0, hfr, hload, asObj, hc, htop,
          hau, au_sort, hf1, hne, hpose, hf2]

/-- C5 (witness): both fields present at a concrete message, with a
smoothing function that returns its sample unchanged. -/
theorem C5_witness :
    pub_sub_step idSmoothFn SmoothData.init
        [Bytes.raw "openface", Bytes.raw "9",
         Bytes.json (.obj [("au_r", JVal.obj [("AU01", JVal.num (mkRat 1 1))]),
                           ("pose", JVal.obj [("Rx", JVal.num (mkRat 2 1))])])]
      = .ok (SmoothData.init,
             some [Bytes.raw "openface", Bytes.raw "9",
                   Bytes.json (.obj (setKey "pose" (JVal.obj [("Rx", JVal.num (mkRat 2 1))])
                     (setKey "au_r" (JVal.obj (sortByKey [("AU01", JVal.num (mkRat 1 1))]))
                       [("au_r", JVal.obj [("AU01", JVal.num (mkRat 1 1))]),
                        ("pose", JVal.obj [("Rx", JVal.num (mkRat 2 1))])])))]) :=
  (C5_smoothing_dispatch idSmoothFn SmoothData.init SmoothData.init SmoothData.init
    (Bytes.raw "openface") (Bytes.raw "9")
    (Bytes.json (.obj [("au_r", JVal.obj [("AU01", JVal.num (mkRat 1 1))]),
                       ("pose", JVal.obj [("Rx", JVal.num (mkRat 2 1))])])) []
    [("au_r", JVal.obj [("AU01", JVal.num (mkRat 1 1))]),
     ("pose", JVal.obj [("Rx", JVal.num (mkRat 2 1))])]
    [("AU01", JVal.num (mkRat 1 1))]
    (JVal.obj [("Rx", JVal.num (mkRat 2 1))])
    (JVal.obj (sortByKey [("AU01", JVal.num (mkRat 1 1))]))
    (JVal.obj [("Rx", JVal.num (mkRat 2 1))])
    rfl rfl rfl rfl).2.2.1 rfl rfl rfl rfl

/-- C6: a non-terminal message that passes the confidence gate and whose
topic starts with the reserved prefix `facsvatar` is forwarded with its
payload unchanged and the smoother state untouched: no smoothing function is
applied (the result holds for every smoothing function and never consults
it). -/
theorem C6_reserved_topic_passthrough (f : SmoothFn) (sd : SmoothData) (t fr p : Bytes)
    (rest : List Bytes) (kvs : List (String × JVal))
    (hfr : fr.isNonEmpty = true)
    (hload : jsonLoads p = .ok (.obj kvs))
    (hc : confidence_ok kvs = .ok true)
    (ht : strStartsWith t.decodeUtf8 "facsvatar" = true) :
    pub_sub_step f sd (t :: fr :: p :: rest)
      = .ok (sd, some [t, fr, Bytes.json (.obj kvs)]) := by
  have h1 : listIdx (t :: fr :: p :: rest) 1 = .ok fr := rfl
  have h2 : listIdx (t :: fr :: p :: rest) 2 = .ok p := rfl
  have h0 : listIdx (t :: fr :: p :: rest) 0 = .ok t := rfl
  simp [pub_sub_step, h1, h2, h0, hfr, hload, asObj, hc, ht]

/-- C6 (witness): a concrete message on topic `facsvatar_dnn` carrying both
smoothable fields is forwarded unchanged. -/
theorem C6_witness :
    pub_sub_step trailingSmoothFn SmoothData.init
        [Bytes.raw "facsvatar_dnn", Bytes.raw "11",
         Bytes.json (.obj [("au_r", JVal.obj [("AU01", JVal.num (mkRat 1 2))])])]
      = .ok (SmoothData.init,
             some [Bytes.raw "facsvatar_dnn", Bytes.raw "11",
                   Bytes.json (.obj [("au_r", JVal.obj [("AU01", JVal.num (mkRat 1 2))])])]) :=
  C6_reserved_topic_passthrough trailingSmoothFn SmoothData.init
    (Bytes.raw "facsvatar_dnn") (Bytes.raw "11")
    (Bytes.json (.obj [("au_r", JVal.obj [("AU01", JVal.num (mkRat 1 2))])])) []
    [("au_r", JVal.obj [("AU01", JVal.num (mkRat 1 2))])]
    rfl rfl rfl rfl

/-- Keys other than `au_r` and `pose` are untouched by the smoothing
stage. -/
theorem au_pose_transform_lookup_ne (f : SmoothFn) (sd : SmoothData)
    (kvs : List (String × JVal)) (sd2 : SmoothData) (kvs2 : List (String × JVal))
    (h : au_pose_transform f sd kvs = .ok (sd2, kvs2))
    (k : String) (hk1 : k ≠ "au_r") (hk2 : k ≠ "pose") :
    lookupKey k kvs2 = lookupKey k kvs := by
  unfold au_pose_transform at h
  split at h
  · simp at h
  · rename_i sd1 kvs1 heq1
    have hkvs1 : lookupKey k kvs1 = lookupKey k kvs := by
      split at heq1
      · simp only [Except.ok.injEq, Prod.mk.injEq] at heq1
        rw [← heq1.2]
      · split at heq1
        · simp at heq1
        · split at heq1
          · simp at heq1
          · simp only [Except.ok.injEq, Prod.mk.injEq] at heq1
            rw [← heq1.2]
            exact lookupKey_setKey_ne k "au_r" _ kvs hk1
    split at h
    · simp only [Except.ok.injEq, Prod.mk.injEq] at h
      rw [← h.2, hkvs1]
    · split at h
      · simp at h
      · simp only [Except.ok.injEq, Prod.mk.injEq] at h
        rw [← h.2, lookupKey_setKey_ne k "pose" _ kvs1 hk2, hkvs1]

/-- C9: every forwarded non-terminal message keeps every payload key other
than `au_r` and `pose` bound to its inbound value (JSON values are compared
structurally, so this is identity up to re-encoding). -/
theorem C9_other_keys_passthrough (f : SmoothFn) (sd : SmoothData) (t fr p : Bytes)
    (rest : List Bytes) (kvs : List (String × JVal)) (sd2 : SmoothData)
    (out : List Bytes)
    (hfr : fr.isNonEmpty = true)
    (hload : jsonLoads p = .ok (.obj kvs))
    (hstep : pub_sub_step f sd (t :: fr :: p :: rest) = .ok (sd2, some out))
    (k : String) (hk1 : k ≠ "au_r") (hk2 : k ≠ "pose") :
    ∃ kvs2, out = [t, fr, Bytes.json (.obj kvs2)]
      ∧ lookupKey k kvs2 = lookupKey k kvs := by
  have h1 : listIdx (t :: fr :: p :: rest) 1 = .ok fr := rfl
  have h2 : listIdx (t :: fr :: p :: rest) 2 = .ok p := rfl
  have h0 : listIdx (t :: fr :: p :: rest) 0 = .ok t := rfl
  simp only [pub_sub_step, h1, h2, h0, hfr, hload, asObj, if_true] at hstep
  split at hstep
  · exact absurd hstep (by simp)
  · rename_i cok heq
    split at hstep
    · split at hstep
      · refine ⟨kvs, ?_, rfl⟩
        simp only [Except.ok.injEq, Prod.mk.injEq, Option.some.injEq] at hstep
        exact hstep.2.symm
      · split at hstep
        · exact absurd hstep (by simp)
        · rename_i sd3 kvs3 heq3
          refine ⟨kvs3, ?_, au_pose_transform_lookup_ne f sd kvs sd3 kvs3 heq3 k hk1 hk2⟩
          simp only [Except.ok.injEq, Prod.mk.injEq, Option.some.injEq] at hstep
          exact hstep.2.symm
    · exact absurd hstep (by simp)

/-- C9 (witness): a concrete forwarded message with an extra key `x` keeps
`x` bound to its inbound value. -/
theorem C9_witness :
    ∃ kvs2,
      [Bytes.raw "openface", Bytes.raw "9",
       Bytes.json (.obj (setKey "au_r"
         (JVal.obj (sortByKey [("AU01", JVal.num (mkRat 1 1))]))
         [("x", JVal.num (mkRat 3 1)),
          ("au_r", JVal.obj [("AU01", JVal.num (mkRat 1 1))])]))]
        = [Bytes.raw "openface", Bytes.raw "9", Bytes.json (.obj kvs2)]
      ∧ lookupKey "x" kvs2
        = lookupKey "x" [("x", JVal.num (mkRat 3 1)),
                         ("au_r", JVal.obj [("AU01", JVal.num (mkRat 1 1))])] :=
  C9_other_keys_passthrough idSmoothFn SmoothData.init
    (Bytes.raw "openface") (Bytes.raw "9")
    (Bytes.json (.obj [("x", JVal.num (mkRat 3 1)),
                       ("au_r", JVal.obj [("AU01", JVal.num (mkRat 1 1))])])) []
    [("x", JVal.num (mkRat 3 1)), ("au_r", JVal.obj [("AU01", JVal.num (mkRat 1 1))])]
    SmoothData.init _ rfl rfl rfl "x" (by decide) (by decide)
